import Mathlib

/-!
Verification of the `arestools` import orchestration engine
(`src/ares_import/ares_import.py`, class `Importer`).

The Python code is shallowly embedded as executable Lean definitions:

* File contents handed to `Importer.tail` are modelled as `List Char`;
  `splitLines` is Python's `file.readlines` line splitting (each line keeps
  its trailing newline, the final line may lack one).
* `tail` models `Importer.tail` (end-relative seeks in blocks of `4098`
  characters; a seek before the start of the file raises `IOError`, which the
  Python code catches and answers by reading the whole file).  The Python
  `while` loop is embedded with an explicit fuel argument that is provably
  sufficient, so the function is total and executable.
* `waitStep` models one iteration of the poll loop of
  `Importer.wait_until_import_is_successful`: take the last two lines of the
  monitored log, index them (raising `IndexError` when fewer than two lines
  exist, exactly as the unguarded `last_2_lines[0]` / `last_2_lines[1]` do),
  and match the three regular-expression markers of the source.
* The per-file import logic (`do_import_from_dir`, `do_import_single_file`,
  `import_definitions`, `run_import`) is embedded as explicit state passing
  over `RunState`; filesystem copies are recorded as events, and the outcome
  of each blocking wait is supplied by an oracle `Nat → Bool` (the n-th wait
  performed in the run returns `oracle n`).  `os._exit(1)` is modelled by the
  `Abort.fatal` result, an uncaught Python exception by `Abort.exn`.
-/

/-- Python exceptions that the embedded code can raise. -/
inductive PyErr where
  | indexError
  | typeError
  | keyError
  | attributeError
  deriving DecidableEq, Repr

/-- Outcome of one iteration of the monitor's poll loop. -/
inductive StepOutcome where
  | succeeded
  | failed
  | pending
  deriving DecidableEq, Repr

/-- Python `xs[i]`: `IndexError` when the (non-negative) index is out of
range. -/
def pyIndex {α : Type} (xs : List α) (i : Nat) : Except PyErr α :=
  match xs[i]? with
  | some x => Except.ok x
  | none => Except.error PyErr.indexError

/-- Python `xs[-n:]` for a non-negative count `n` (the slice used by
`Importer.tail` as `lines_found[-lines:]`).  For `n = 0` Python's `xs[-0:]`
is the whole list. -/
def pySliceLast {α : Type} (n : Nat) (xs : List α) : List α :=
  if n = 0 then xs else xs.drop (xs.length - n)

/-- Python `file.readlines()` applied to `content`: split after every
newline character; every line except possibly the last ends with `'\n'`;
an empty file yields no lines. -/
def splitLines : List Char → List (List Char)
  | [] => []
  | c :: rest =>
    if c == '\n' then
      [c] :: splitLines rest
    else
      match splitLines rest with
      | [] => [[c]]
      | l :: ls => (c :: l) :: ls

/-- The `while` loop of `Importer.tail`.  State: `bc` is the (negated) block
counter (`block_counter = -bc` in the source, starting at `-1`), `found` is
`lines_found`.  One iteration: if fewer than `lines` lines were found, seek
to `content.length - bc * buffer` from the start (Python
`f.seek(-bc*buffer, os.SEEK_END)`); if that position is negative the seek
raises `IOError` and the code falls back to reading the whole file and
stops; otherwise `readlines` from that position (possibly starting inside a
line) and repeat with the next block.  The fuel argument only bounds the
iteration count and is chosen large enough in `tail` to never run out. -/
def tailLoop (content : List Char) (lines buffer : Nat) :
    Nat → Nat → List (List Char) → List (List Char)
  | _bc, 0, found => pySliceLast lines found
  | bc, fuel + 1, found =>
    if found.length < lines then
      if content.length < bc * buffer then
        pySliceLast lines (splitLines content)
      else
        tailLoop content lines buffer (bc + 1) fuel
          (splitLines (content.drop (content.length - bc * buffer)))
    else
      pySliceLast lines found

/-- Method `Importer.tail(f, lines)` with the default buffer size `4098`. -/
def tail (content : List Char) (lines : Nat) : List (List Char) :=
  tailLoop content lines 4098 1 (content.length / 4098 + 2) []

/-- The regular expression `FileManagerImpl \- Finished importing`
(`re.match` anchors at the start of the line, so matching is a prefix
test on this literal). -/
def finishedImportingMarker : List Char := "FileManagerImpl - Finished importing".data

/-- The regular expression ` \- Import time:` as a literal prefix. -/
def importTimeMarker : List Char := " - Import time:".data

/-- The literal prefix of the regular expression
` \- Import of task .* failed`. -/
def importOfTaskMarker : List Char := " - Import of task ".data

/-- The literal tail ` failed` of the task-failure regular expression. -/
def failedWord : List Char := " failed".data

/-- Test that `p` is a prefix of `l` (Boolean, by direct recursion). -/
def listStartsWith : List Char → List Char → Bool
  | [], _ => true
  | _ :: _, [] => false
  | p :: ps, c :: cs => p == c && listStartsWith ps cs

/-- Test that `needle` occurs contiguously somewhere in the second list. -/
def containsSeq (needle : List Char) : List Char → Bool
  | [] => needle.isEmpty
  | c :: rest => listStartsWith needle (c :: rest) || containsSeq needle rest

/-- Test that `re.match(r'FileManagerImpl \- Finished importing', line)`
succeeds. -/
def matchFinishedImporting (l : List Char) : Bool :=
  listStartsWith finishedImportingMarker l

/-- Test that `re.match(r' \- Import time:', line)` succeeds. -/
def matchImportTime (l : List Char) : Bool :=
  listStartsWith importTimeMarker l

/-- Test that `re.match(r' \- Import of task .* failed', line)` succeeds:
the line
starts with the literal ` - Import of task `, and ` failed` occurs after it
with only non-newline characters in between (`.` does not match `'\n'`). -/
def matchTaskFailed (l : List Char) : Bool :=
  listStartsWith importOfTaskMarker l &&
    containsSeq failedWord
      ((l.drop importOfTaskMarker.length).takeWhile (fun c => !(c == '\n')))

/-- The decision taken by one iteration of the poll loop of
`wait_until_import_is_successful`, given `line1 = last_2_lines[0]` (the
second-to-last line of the log) and `line2 = last_2_lines[1]` (the last
line).  The source tests the *last* line against the finished-importing
marker and then runs two sequential `if`s on the *second-to-last* line; when
both matched, the second assignment (`result = False`) would win, so the
task-failed test is decisive. -/
def pollDecision (line1 line2 : List Char) : StepOutcome :=
  if matchFinishedImporting line2 then
    if matchTaskFailed line1 then StepOutcome.failed
    else if matchImportTime line1 then StepOutcome.succeeded
    else StepOutcome.pending
  else
    StepOutcome.pending

/-- One poll iteration of `wait_until_import_is_successful` on a snapshot of
the monitored log: `last_2_lines = self.tail(f, lines=2)`, then the
unguarded `last_2_lines[0]` and `last_2_lines[1]`, then the marker tests. -/
def waitStep (content : List Char) : Except PyErr StepOutcome :=
  let last2 := tail content 2
  match pyIndex last2 0 with
  | Except.error e => Except.error e
  | Except.ok line1 =>
    match pyIndex last2 1 with
    | Except.error e => Except.error e
    | Except.ok line2 => Except.ok (pollDecision line1 line2)

/-- The whole poll loop run over successive snapshots of the growing log
file; `Except.ok none` means every supplied snapshot left the loop still
polling. -/
def waitRun : List (List Char) → Except PyErr (Option Bool)
  | [] => Except.ok none
  | c :: rest =>
    match waitStep c with
    | Except.error e => Except.error e
    | Except.ok StepOutcome.succeeded => Except.ok (some true)
    | Except.ok StepOutcome.failed => Except.ok (some false)
    | Except.ok StepOutcome.pending => waitRun rest

/-- One entry of the type catalog `import_file_types.json` as held in
`self.ares_data_types`: a compiled detection pattern (abstracted as a
Boolean matcher on a base file name, since the patterns are configuration
data, not source code) and the destination subdirectory `['dir']`. -/
structure TypeInfo where
  re : String → Bool
  dir : String

/-- The fields of an `Importer` instance that the import logic reads or
writes.  `ares_data_types` is an `Option`: `none` models the attribute
never having been assigned (in `__init__` the configuration is loaded only
when both `data_type` and `import_dir` are absent; accessing the missing
attribute raises `AttributeError`).  `Option` on the string fields models
Python truthiness of the `None`-defaulted constructor arguments.  Fields
used only for logging (`ares_runtime`, `admin_server_log`) are omitted. -/
structure Importer where
  data_dir : Option String
  input_file : Option String
  def_file : Option String
  data_type : Option String
  import_dir : Option String
  ares_import : String
  ares_data_types : Option (List (String × TypeInfo))
  input_files : List String
  num_of_files : Nat
  num_of_imported_files : Nat
  num_of_failed_files : Nat

/-- Run-time state threaded through a `run_import` call: the object state,
the number of completed `wait_until_import_is_successful` calls (`oracle n`
is the result of the `n`-th wait), and the `shutil.copy` events performed so
far, as `(source file, destination directory)` pairs. -/
structure RunState where
  imp : Importer
  waitCount : Nat
  copies : List (String × String)

/-- How a run can stop early: `fatal` models `os._exit(1)`, `exn` an
uncaught Python exception; both carry the state reached so far. -/
inductive Abort where
  | fatal : RunState → Abort
  | exn : PyErr → RunState → Abort

/-- Helper for `os.path.basename`: keep the part of the path after the
last `'/'`. -/
def basenameChars : List Char → List Char → List Char
  | [], acc => acc.reverse
  | c :: rest, acc =>
    if c == '/' then basenameChars rest [] else basenameChars rest (c :: acc)

/-- Python `os.path.basename(fname)` on a string path. -/
def pyBasename (s : String) : String := ⟨basenameChars s.data []⟩

/-- Python dict lookup `catalog[t]` on the ordered catalog (`none` models
`KeyError`). -/
def lookupType : List (String × TypeInfo) → String → Option TypeInfo
  | [], _ => none
  | (n, i) :: rest, t => if n == t then some i else lookupType rest t

/-- The first-match scan of `do_import_from_dir` /
`do_import_single_file`: iterate the catalog in order and return the name
and destination subdirectory of the first rule whose pattern matches the
base file name. -/
def firstMatch : List (String × TypeInfo) → String → Option (String × String)
  | [], _ => none
  | (typ, info) :: rest, base =>
    if info.re base then some (typ, info.dir) else firstMatch rest base

/-- The type/destination detection block shared by `do_import_from_dir`
and `do_import_single_file` (lines 244-259): an explicit `import_dir`
bypasses everything; otherwise a forced `data_type` is looked up directly
in the catalog (`KeyError` when absent); otherwise the catalog is scanned
for the first pattern matching the base name.  `Except.ok none` is the
`ftype = None` "unidentified data file type" case. -/
def detectType (imp : Importer) (fname : String) :
    Except PyErr (Option (String × String)) :=
  match imp.import_dir with
  | some d => Except.ok (some ("<assumed from specified folder>", d))
  | none =>
    match imp.data_type with
    | some t =>
      match imp.ares_data_types with
      | none => Except.error PyErr.attributeError
      | some catalog =>
        match lookupType catalog t with
        | some info => Except.ok (some (t, info.dir))
        | none => Except.error PyErr.keyError
    | none =>
      match imp.ares_data_types with
      | none => Except.error PyErr.attributeError
      | some catalog => Except.ok (firstMatch catalog (pyBasename fname))

/-- Method `Importer.update_stats_on_result`. -/
def update_stats_on_result (result : Bool) (s : RunState) : RunState :=
  if result then
    { s with imp := { s.imp with
        num_of_imported_files := s.imp.num_of_imported_files + 1 } }
  else
    { s with imp := { s.imp with
        num_of_failed_files := s.imp.num_of_failed_files + 1 } }

/-- The body of the per-file loop of `do_import_from_dir` (also the body of
`do_import_single_file`): detect the type; on `None` count a failure and
move on; otherwise copy the file to `ares_import + "/" + fimport_dir`, wait
for the monitored result and update the statistics. -/
def importFileStep (oracle : Nat → Bool) (s : RunState) (fname : String) :
    Except (PyErr × RunState) RunState :=
  match detectType s.imp fname with
  | Except.error e => Except.error (e, s)
  | Except.ok none =>
    Except.ok { s with imp := { s.imp with
        num_of_failed_files := s.imp.num_of_failed_files + 1 } }
  | Except.ok (some (_ftype, fimport_dir)) =>
    let dest := s.imp.ares_import ++ "/" ++ fimport_dir
    let s1 : RunState := { s with copies := s.copies ++ [(fname, dest)] }
    let result := oracle s1.waitCount
    let s2 : RunState := { s1 with waitCount := s1.waitCount + 1 }
    Except.ok (update_stats_on_result result s2)

/-- The `for i, fname in enumerate(self.input_files)` loop of
`do_import_from_dir`. -/
def importLoop (oracle : Nat → Bool) (s : RunState) :
    List String → Except (PyErr × RunState) RunState
  | [] => Except.ok s
  | f :: fs =>
    match importFileStep oracle s f with
    | Except.error e => Except.error e
    | Except.ok s1 => importLoop oracle s1 fs

/-- Method `Importer.do_import_from_dir`: set `num_of_files` to the number of
enumerated input files, then run the loop. -/
def do_import_from_dir (oracle : Nat → Bool) (s : RunState) :
    Except (PyErr × RunState) RunState :=
  let s0 : RunState := { s with imp := { s.imp with
      num_of_files := s.imp.input_files.length } }
  importLoop oracle s0 s0.imp.input_files

/-- Method `Importer.do_import_single_file`: the same per-file logic applied once
to `self.input_file`. -/
def do_import_single_file (oracle : Nat → Bool) (s : RunState) :
    Except (PyErr × RunState) RunState :=
  importFileStep oracle s (s.imp.input_file.getD "")

/-- Method `Importer.import_definitions`: requires `import_dir` (fatal exit when
missing), copies the definition file to
`ares_import + "/paramdef/" + import_dir`, waits; on failure exits fatally,
on success rewrites `import_dir` to `"parameter/" + import_dir`. -/
def import_definitions (oracle : Nat → Bool) (s : RunState) :
    Except Abort RunState :=
  match s.imp.import_dir with
  | none => Except.error (Abort.fatal s)
  | some d =>
    let fimport_dir := "paramdef/" ++ d
    let fname := s.imp.def_file.getD ""
    let dest := s.imp.ares_import ++ "/" ++ fimport_dir
    let s1 : RunState := { s with copies := s.copies ++ [(fname, dest)] }
    let result := oracle s1.waitCount
    let s2 : RunState := { s1 with waitCount := s1.waitCount + 1 }
    if result then
      Except.ok { s2 with imp := { s2.imp with
          import_dir := some ("parameter/" ++ d) } }
    else
      Except.error (Abort.fatal s2)

/-- Method `Importer.compile_patterns`: iterates `self.ares_data_types.items()`;
when the attribute was never assigned this raises `AttributeError`.
Re-compiling the already-abstract patterns is a no-op in the model. -/
def compile_patterns (imp : Importer) : Except PyErr Importer :=
  match imp.ares_data_types with
  | none => Except.error PyErr.attributeError
  | some _ => Except.ok imp

/-- Method `Importer.run_import`: `compile_patterns`, then the optional definition
phase (only when `def_file` is given), then either the directory loop (when
`data_dir` is given) or the single-file import. -/
def run_import (oracle : Nat → Bool) (s : RunState) : Except Abort RunState :=
  match compile_patterns s.imp with
  | Except.error e => Except.error (Abort.exn e s)
  | Except.ok _ =>
    let phase1 : Except Abort RunState :=
      match s.imp.def_file with
      | some _ => import_definitions oracle s
      | none => Except.ok s
    match phase1 with
    | Except.error a => Except.error a
    | Except.ok s1 =>
      match s1.imp.data_dir with
      | some _ =>
        match do_import_from_dir oracle s1 with
        | Except.error (e, se) => Except.error (Abort.exn e se)
        | Except.ok s2 => Except.ok s2
      | none =>
        match do_import_single_file oracle s1 with
        | Except.error (e, se) => Except.error (Abort.exn e se)
        | Except.ok s2 => Except.ok s2

/-- The filesystem facts `Importer.__init__` consults: which paths are
directories, and the result of `glob.glob(data_dir + '/*.dat')`. -/
structure FileSys where
  isDir : String → Bool
  globDat : String → List String

/-- Python `os.path.isdir` applied to a `None`-able argument: `os.path.isdir(None)`
calls `os.stat(None)`, which raises `TypeError` (not caught by `isdir`). -/
def pyIsDirOpt (fs : FileSys) : Option String → Except PyErr Bool
  | none => Except.error PyErr.typeError
  | some s => Except.ok (fs.isDir s)

/-- Result of `Importer.__init__`. -/
inductive InitResult where
  | ok : Importer → InitResult
  | fatalExit : InitResult
  | exn : PyErr → InitResult

/-- Constructor `Importer.__init__(data_dir, input_file, def_file, ares_runtime,
import_dir, data_type)`.  `runtimeDefault` is the class-level
`AresRuntimeDir`; `catalog` is the content of `import_file_types.json`
(loaded, and the attribute `ares_data_types` assigned, only when both
`data_type` and `import_dir` are falsy).  The checks run in source order:
runtime folder, then `os.path.isdir(self.data_dir)` (a `TypeError` when
`data_dir` is `None`), then the glob (fatal when it yields no file), then
the optional `import_dir` check. -/
def importerInit (fs : FileSys) (runtimeDefault : String)
    (catalog : List (String × TypeInfo))
    (data_dir input_file def_file ares_runtime import_dir data_type :
      Option String) : InitResult :=
  let ares_runtime' := ares_runtime.getD runtimeDefault
  let loaded : Option (List (String × TypeInfo)) :=
    if data_type.isNone && import_dir.isNone then some catalog else none
  if !(fs.isDir ares_runtime') then InitResult.fatalExit
  else
    let ares_import := ares_runtime' ++ "/import"
    match pyIsDirOpt fs data_dir with
    | Except.error e => InitResult.exn e
    | Except.ok b =>
      if !b then InitResult.fatalExit
      else
        let input_files := fs.globDat (data_dir.getD "")
        if input_files.length < 1 then InitResult.fatalExit
        else
          match import_dir with
          | some idir =>
            if !(fs.isDir idir) then InitResult.fatalExit
            else
              InitResult.ok
                { data_dir := data_dir, input_file := input_file,
                  def_file := def_file, data_type := data_type,
                  import_dir := some idir, ares_import := ares_import,
                  ares_data_types := loaded, input_files := input_files,
                  num_of_files := 1, num_of_imported_files := 0,
                  num_of_failed_files := 0 }
          | none =>
            InitResult.ok
              { data_dir := data_dir, input_file := input_file,
                def_file := def_file, data_type := data_type,
                import_dir := none, ares_import := ares_import,
                ares_data_types := loaded, input_files := input_files,
                num_of_files := 1, num_of_imported_files := 0,
                num_of_failed_files := 0 }

/-! ### Lemmas about `splitLines` and `tail` -/

theorem splitLines_eq_nil_iff (cs : List Char) : splitLines cs = [] ↔ cs = [] := by
  cases cs with
  | nil => simp [splitLines]
  | cons c rest =>
    simp only [splitLines]
    split
    · simp
    · split <;> simp

theorem length_splitLines_cons (c : Char) (rest : List Char) :
    (splitLines rest).length ≤ (splitLines (c :: rest)).length := by
  simp only [splitLines]
  split
  · simp
  · split <;> simp_all

theorem length_splitLines_drop (cs : List Char) (p : Nat) :
    (splitLines (cs.drop p)).length ≤ (splitLines cs).length := by
  induction cs generalizing p with
  | nil => simp
  | cons c rest ih =>
    cases p with
    | zero => simp
    | succ q =>
      calc (splitLines ((c :: rest).drop (q + 1))).length
          = (splitLines (rest.drop q)).length := by simp
        _ ≤ (splitLines rest).length := ih q
        _ ≤ (splitLines (c :: rest)).length := length_splitLines_cons c rest

theorem tailLoop_small (content : List Char) (lines buffer : Nat)
    (hsplit : (splitLines content).length < lines) :
    ∀ fuel bc found, 1 ≤ fuel →
      content.length + buffer < (bc + fuel) * buffer →
      found.length < lines →
      tailLoop content lines buffer bc fuel found
        = pySliceLast lines (splitLines content) := by
  intro fuel
  induction fuel with
  | zero => intro bc found h1 _ _; omega
  | succ n ih =>
    intro bc found _ hinv hfound
    rw [tailLoop, if_pos hfound]
    by_cases hseek : content.length < bc * buffer
    · rw [if_pos hseek]
    · rw [if_neg hseek]
      push_neg at hseek
      cases n with
      | zero =>
        exfalso
        have hx : (bc + (0 + 1)) * buffer = bc * buffer + buffer := by ring
        omega
      | succ m =>
        apply ih
        · omega
        · have he : (bc + 1 + (m + 1)) * buffer = (bc + (m + 1 + 1)) * buffer := by
            ring
          omega
        · exact Nat.lt_of_le_of_lt
            (length_splitLines_drop content (content.length - bc * buffer)) hsplit

theorem tail_small (content : List Char) (lines : Nat)
    (h : (splitLines content).length < lines) (hl : 0 < lines) :
    tail content lines = pySliceLast lines (splitLines content) := by
  apply tailLoop_small content lines 4098 h (content.length / 4098 + 2) 1 []
  · omega
  · have h1 := Nat.div_add_mod content.length 4098
    have h2 : content.length % 4098 < 4098 := Nat.mod_lt _ (by omega)
    have h3 : (1 + (content.length / 4098 + 2)) * 4098
        = content.length / 4098 * 4098 + 3 * 4098 := by ring
    omega
  · simpa using hl

theorem tail_two_of_short (content : List Char)
    (h : (splitLines content).length < 2) :
    tail content 2 = splitLines content := by
  rw [tail_small content 2 h (by omega), pySliceLast]
  rw [if_neg (by omega), Nat.sub_eq_zero_of_le (by omega), List.drop_zero]

/-- C9: for every log file whose content is exactly one line, `tail`
asked for the last 2 lines returns exactly that one line (the end-relative
seek fails on the too-small file, the code falls back to reading the whole
file, and `lines_found[-2:]` is that single line); no error escapes. -/
theorem c9_tail_short_file (content l : List Char)
    (h : splitLines content = [l]) : tail content 2 = [l] := by
  rw [tail_two_of_short content (by rw [h]; simp), h]

theorem c9_witness :
    splitLines ("ok\n".data) = ["ok\n".data] ∧ tail ("ok\n".data) 2 = ["ok\n".data] :=
  ⟨by decide, c9_tail_short_file _ _ (by decide)⟩

/-- C10: at any poll step where the monitored log holds fewer than two
lines, the wait raises `IndexError`: `wait_until_import_is_successful`
unconditionally indexes `last_2_lines[0]` and `last_2_lines[1]`, and the
tail result has fewer than two entries for such a file. -/
theorem c10_wait_index_error (content : List Char)
    (h : (splitLines content).length < 2) :
    waitStep content = Except.error PyErr.indexError := by
  have ht := tail_two_of_short content h
  cases hsc : splitLines content with
  | nil =>
    rw [hsc] at ht
    simp [waitStep, ht, pyIndex]
  | cons l ls =>
    cases ls with
    | nil =>
      rw [hsc] at ht
      simp [waitStep, ht, pyIndex]
    | cons l2 ls2 =>
      rw [hsc] at h
      simp at h
      omega

theorem c10_witness :
    (splitLines ("x\n".data)).length < 2 ∧
      waitStep ("x\n".data) = Except.error PyErr.indexError :=
  ⟨by decide, c10_wait_index_error _ (by decide)⟩

theorem join_splitLines (cs : List Char) : (splitLines cs).flatten = cs := by
  induction cs with
  | nil => simp [splitLines]
  | cons c rest ih =>
    simp only [splitLines]
    split
    · simp [ih]
    · cases hsp : splitLines rest with
      | nil =>
        rw [(splitLines_eq_nil_iff rest).mp hsp]
        simp
      | cons l ls =>
        rw [hsp] at ih
        simp only [List.flatten_cons] at ih ⊢
        simp [ih]

theorem pySliceLast_two {α : Type} (pre : List α) (a b : α) :
    pySliceLast 2 (pre ++ [a, b]) = [a, b] := by
  rw [pySliceLast, if_neg (by omega)]
  have h : (pre ++ [a, b]).length - 2 = pre.length := by simp
  rw [h, List.drop_left]

theorem splitLines_cons_keeps_last_two (c : Char) (cs' : List Char)
    (pre : List (List Char)) (a b : List Char)
    (h : splitLines (c :: cs') = pre ++ [a, b])
    (hb : a.length + b.length ≤ cs'.length) :
    ∃ pre₂, splitLines cs' = pre₂ ++ [a, b] := by
  have hjoin := join_splitLines cs'
  simp only [splitLines] at h
  split at h
  · cases pre with
    | nil =>
      exfalso
      simp only [List.nil_append] at h
      have h1 : ([c] : List Char) = a ∧ splitLines cs' = [b] := by
        constructor
        · exact (List.cons.inj h).1
        · exact (List.cons.inj h).2
      obtain ⟨ha, hbs⟩ := h1
      rw [hbs] at hjoin
      simp at hjoin
      have hla : a.length = 1 := by rw [← ha]; rfl
      have hlb : cs'.length = b.length := by rw [← hjoin]
      omega
    | cons x pre' =>
      simp only [List.cons_append] at h
      exact ⟨pre', (List.cons.inj h).2⟩
  · split at h
    · exfalso
      have hlen := congrArg List.length h
      simp at hlen
    · rename_i l ls hsp
      cases pre with
      | nil =>
        exfalso
        simp only [List.nil_append] at h
        have ha : c :: l = a := (List.cons.inj h).1
        have hls : ls = [b] := (List.cons.inj h).2
        rw [hsp, hls] at hjoin
        simp at hjoin
        have hla : a.length = l.length + 1 := by
          rw [← ha]; rfl
        have hlc : cs'.length = l.length + b.length := by
          rw [← hjoin]; simp
        omega
      | cons x pre' =>
        simp only [List.cons_append] at h
        refine ⟨l :: pre', ?_⟩
        rw [hsp, (List.cons.inj h).2]
        simp

theorem splitLines_drop_keeps_last_two :
    ∀ (p : Nat) (cs : List Char) (pre : List (List Char)) (a b : List Char),
      splitLines cs = pre ++ [a, b] →
      p + (a.length + b.length) ≤ cs.length →
      ∃ pre', splitLines (cs.drop p) = pre' ++ [a, b] := by
  intro p
  induction p with
  | zero =>
    intro cs pre a b h _
    exact ⟨pre, by simpa using h⟩
  | succ q ih =>
    intro cs pre a b h hlen
    cases cs with
    | nil =>
      exfalso
      have hl := congrArg List.length h
      simp [splitLines] at hl
    | cons c cs' =>
      have hb : a.length + b.length ≤ cs'.length := by
        simp only [List.length_cons] at hlen
        omega
      obtain ⟨pre₂, h₂⟩ := splitLines_cons_keeps_last_two c cs' pre a b h hb
      have hdrop : (c :: cs').drop (q + 1) = cs'.drop q := rfl
      rw [hdrop]
      apply ih cs' pre₂ a b h₂
      simp only [List.length_cons] at hlen
      omega

theorem tail_two_exact (content : List Char) (pre : List (List Char))
    (a b : List Char) (hsplit : splitLines content = pre ++ [a, b])
    (hfit : a.length + b.length ≤ 4098) :
    tail content 2 = [a, b] := by
  rw [tail]
  rw [show content.length / 4098 + 2 = (content.length / 4098 + 1) + 1 from rfl]
  rw [tailLoop, if_pos (by simp)]
  by_cases hlt : content.length < 1 * 4098
  · rw [if_pos hlt, hsplit, pySliceLast_two]
  · rw [if_neg hlt]
    push_neg at hlt
    rw [one_mul] at hlt ⊢
    obtain ⟨pre', hfound⟩ :=
      splitLines_drop_keeps_last_two (content.length - 4098) content pre a b
        hsplit (by omega)
    rw [show content.length / 4098 + 1 = content.length / 4098 + 1 from rfl]
    rw [tailLoop, hfound, if_neg (by simp)]
    rw [pySliceLast_two]

theorem listStartsWith_iff (p : List Char) :
    ∀ l, listStartsWith p l = true ↔ ∃ t, l = p ++ t := by
  induction p with
  | nil =>
    intro l
    simp [listStartsWith]
  | cons x ps ih =>
    intro l
    cases l with
    | nil => simp [listStartsWith]
    | cons c cs =>
      simp only [listStartsWith, Bool.and_eq_true, beq_iff_eq, ih cs,
        List.cons_append, List.cons.injEq]
      constructor
      · rintro ⟨rfl, t, rfl⟩
        exact ⟨t, rfl, rfl⟩
      · rintro ⟨t, rfl, rfl⟩
        exact ⟨rfl, t, rfl⟩

/-- The two second-to-last-line markers are mutually exclusive: a line
matching ` \- Import time:` cannot also match
` \- Import of task .* failed` (the literal prefixes disagree). -/
theorem matchImportTime_not_taskFailed (l : List Char)
    (h : matchImportTime l = true) : matchTaskFailed l = false := by
  obtain ⟨t, rfl⟩ := (listStartsWith_iff importTimeMarker l).mp h
  rfl

theorem waitStep_eq_pollDecision (content : List Char)
    (pre : List (List Char)) (a b : List Char)
    (hsplit : splitLines content = pre ++ [a, b])
    (hfit : a.length + b.length ≤ 4098) :
    waitStep content = Except.ok (pollDecision a b) := by
  have ht := tail_two_exact content pre a b hsplit hfit
  simp [waitStep, ht, pyIndex]

/-- C1 (amended): at every poll step whose two tail lines are genuinely the
last two lines of the log (their total length fits in the 4098-character
seek window), the roles of the two lines are the opposite of the claim: the
*last* line is tested against the import-finished marker, and when it
matches, the *second-to-last* line decides — task-failed marker terminates
the wait with Failed, duration/time marker terminates it with Succeeded,
and if it matches neither (or the last line does not match the finished
marker) polling continues without error. -/
theorem c1_poll_marker_roles (content : List Char) (pre : List (List Char))
    (a b : List Char) (hsplit : splitLines content = pre ++ [a, b])
    (hfit : a.length + b.length ≤ 4098) :
    (matchFinishedImporting b = false →
      waitStep content = Except.ok StepOutcome.pending) ∧
    (matchFinishedImporting b = true → matchTaskFailed a = true →
      waitStep content = Except.ok StepOutcome.failed) ∧
    (matchFinishedImporting b = true → matchImportTime a = true →
      waitStep content = Except.ok StepOutcome.succeeded) ∧
    (matchFinishedImporting b = true → matchImportTime a = false →
      matchTaskFailed a = false →
      waitStep content = Except.ok StepOutcome.pending) ∧
    (∀ rest, waitStep content = Except.ok StepOutcome.pending →
      waitRun (content :: rest) = waitRun rest) := by
  have hstep := waitStep_eq_pollDecision content pre a b hsplit hfit
  refine ⟨?_, ?_, ?_, ?_, ?_⟩
  · intro hb
    rw [hstep, pollDecision]
    simp [hb]
  · intro hb ha
    rw [hstep, pollDecision]
    simp [hb, ha]
  · intro hb ha
    rw [hstep, pollDecision]
    simp [hb, ha, matchImportTime_not_taskFailed a ha]
  · intro hb ht hf
    rw [hstep, pollDecision]
    simp [hb, ht, hf]
  · intro rest h
    simp [waitRun, h]

def c1cexLine1 : List Char := "FileManagerImpl - Finished importing TASK_1\n".data

def c1cexLine2 : List Char := " - Import time: 00:00:12\n".data

def c1cexContent : List Char := c1cexLine1 ++ c1cexLine2

/-- C1 counterexample: a log snapshot whose *second-to-last* line matches
the import-finished marker and whose *last* line matches the duration/time
marker.  The claim says the wait terminates with Succeeded here; the code
instead keeps polling (it matched the finished marker against the last
line), so the claim as stated is false. -/
theorem c1_poll_marker_roles_counterexample :
    ¬ (splitLines c1cexContent = [c1cexLine1, c1cexLine2] →
       matchFinishedImporting c1cexLine1 = true →
       matchImportTime c1cexLine2 = true →
       waitStep c1cexContent = Except.ok StepOutcome.succeeded) := by
  intro h
  have h2 := h (by decide) (by decide) (by decide)
  have h3 : waitStep c1cexContent = Except.ok StepOutcome.pending := rfl
  rw [h3] at h2
  simp at h2

theorem c1_poll_marker_roles_witness :
    waitStep ("log start\n - Import time: 00:00:07\nFileManagerImpl - Finished importing T2\n".data)
      = Except.ok StepOutcome.succeeded :=
  (c1_poll_marker_roles
      ("log start\n - Import time: 00:00:07\nFileManagerImpl - Finished importing T2\n".data)
      ["log start\n".data]
      (" - Import time: 00:00:07\n".data)
      ("FileManagerImpl - Finished importing T2\n".data)
      (by decide) (by decide)).2.2.1 (by decide) (by decide)

/-! ### Lemmas about the per-file import step -/

theorem detectType_override (imp : Importer) (fname d : String)
    (h : imp.import_dir = some d) :
    detectType imp fname
      = Except.ok (some ("<assumed from specified folder>", d)) := by
  unfold detectType
  rw [h]

theorem detectType_forced (imp : Importer) (fname t : String)
    (cat : List (String × TypeInfo)) (info : TypeInfo)
    (hover : imp.import_dir = none) (htype : imp.data_type = some t)
    (hcat : imp.ares_data_types = some cat)
    (hlook : lookupType cat t = some info) :
    detectType imp fname = Except.ok (some (t, info.dir)) := by
  simp only [detectType, hover, htype, hcat, hlook]

theorem detectType_scan (imp : Importer) (fname : String)
    (cat : List (String × TypeInfo))
    (hover : imp.import_dir = none) (htype : imp.data_type = none)
    (hcat : imp.ares_data_types = some cat) :
    detectType imp fname = Except.ok (firstMatch cat (pyBasename fname)) := by
  simp only [detectType, hover, htype, hcat]

theorem importFileStep_of_detect_some (oracle : Nat → Bool) (s : RunState)
    (f t dir : String)
    (h : detectType s.imp f = Except.ok (some (t, dir))) :
    importFileStep oracle s f = Except.ok (update_stats_on_result
      (oracle s.waitCount)
      { s with copies := s.copies ++ [(f, s.imp.ares_import ++ "/" ++ dir)],
               waitCount := s.waitCount + 1 }) := by
  unfold importFileStep
  rw [h]

theorem importFileStep_of_detect_none (oracle : Nat → Bool) (s : RunState)
    (f : String) (h : detectType s.imp f = Except.ok none) :
    importFileStep oracle s f = Except.ok
      { s with imp := { s.imp with
          num_of_failed_files := s.imp.num_of_failed_files + 1 } } := by
  unfold importFileStep
  rw [h]

theorem update_stats_fields (r : Bool) (s : RunState) :
    (update_stats_on_result r s).copies = s.copies ∧
    (update_stats_on_result r s).waitCount = s.waitCount ∧
    (update_stats_on_result r s).imp.import_dir = s.imp.import_dir ∧
    (update_stats_on_result r s).imp.ares_import = s.imp.ares_import ∧
    (update_stats_on_result r s).imp.data_type = s.imp.data_type ∧
    (update_stats_on_result r s).imp.ares_data_types = s.imp.ares_data_types ∧
    (update_stats_on_result r s).imp.num_of_files = s.imp.num_of_files ∧
    (update_stats_on_result r s).imp.num_of_imported_files
      = s.imp.num_of_imported_files + (if r then 1 else 0) ∧
    (update_stats_on_result r s).imp.num_of_failed_files
      = s.imp.num_of_failed_files + (if r then 0 else 1) := by
  unfold update_stats_on_result
  cases r <;> simp

theorem importLoop_override (oracle : Nat → Bool) (D : String) :
    ∀ (fs : List String) (s : RunState), s.imp.import_dir = some D →
      ∃ s', importLoop oracle s fs = Except.ok s' ∧
        s'.copies = s.copies
          ++ fs.map (fun fn => (fn, s.imp.ares_import ++ "/" ++ D)) ∧
        s'.imp.import_dir = some D ∧
        s'.imp.ares_import = s.imp.ares_import := by
  intro fs
  induction fs with
  | nil =>
    intro s h
    exact ⟨s, rfl, by simp, h, rfl⟩
  | cons f fs' ih =>
    intro s h
    have hstep := importFileStep_of_detect_some oracle s f
      "<assumed from specified folder>" D (detectType_override s.imp f D h)
    set s1 : RunState :=
      { s with copies := s.copies ++ [(f, s.imp.ares_import ++ "/" ++ D)],
               waitCount := s.waitCount + 1 } with hs1
    set s2 := update_stats_on_result (oracle s.waitCount) s1 with hs2
    have hf := update_stats_fields (oracle s.waitCount) s1
    obtain ⟨s', hloop, hcopies, hover', hai⟩ := ih s2 (by rw [hf.2.2.1]; exact h)
    refine ⟨s', ?_, ?_, hover', ?_⟩
    · rw [importLoop, hstep]
      exact hloop
    · rw [hcopies, hf.1, hf.2.2.2.1]
      simp
    · rw [hai, hf.2.2.2.1]

theorem import_definitions_eq (oracle : Nat → Bool) (s : RunState) (f d : String)
    (hdef : s.imp.def_file = some f) (hover : s.imp.import_dir = some d) :
    import_definitions oracle s =
      (if oracle s.waitCount then
        Except.ok { s with
          copies := s.copies
            ++ [(f, s.imp.ares_import ++ "/" ++ ("paramdef/" ++ d))],
          waitCount := s.waitCount + 1,
          imp := { s.imp with import_dir := some ("parameter/" ++ d) } }
      else
        Except.error (Abort.fatal { s with
          copies := s.copies
            ++ [(f, s.imp.ares_import ++ "/" ++ ("paramdef/" ++ d))],
          waitCount := s.waitCount + 1 })) := by
  unfold import_definitions
  rw [hover, hdef]
  rfl

/-- C2: when the definition (schema) import's wait reports failure, the
whole run aborts fatally at that point (`os._exit(1)` in
`import_definitions`): the only copy ever performed is the definition file
into the `paramdef/` destination, exactly one wait was consumed, and the
per-file import loop is never entered. -/
theorem c2_schema_failure_fatal (oracle : Nat → Bool) (s : RunState)
    (cat : List (String × TypeInfo)) (f d : String)
    (hcat : s.imp.ares_data_types = some cat)
    (hdef : s.imp.def_file = some f)
    (hover : s.imp.import_dir = some d)
    (hwait : oracle s.waitCount = false) :
    ∃ s', run_import oracle s = Except.error (Abort.fatal s') ∧
      s'.copies = s.copies
        ++ [(f, s.imp.ares_import ++ "/" ++ ("paramdef/" ++ d))] ∧
      s'.waitCount = s.waitCount + 1 := by
  have hid := import_definitions_eq oracle s f d hdef hover
  rw [hwait] at hid
  simp only [Bool.false_eq_true, if_false] at hid
  refine ⟨{ s with
      copies := s.copies
        ++ [(f, s.imp.ares_import ++ "/" ++ ("paramdef/" ++ d))],
      waitCount := s.waitCount + 1 }, ?_, rfl, rfl⟩
  simp only [run_import, compile_patterns, hcat, hdef]
  rw [hid]

theorem c2_witness :
    ∃ s', run_import (fun _ => false)
        ⟨⟨some "/data", none, some "/defs/schema.csv", none, some "mymission",
          "/rt/import", some [], ["/data/a.dat"], 1, 0, 0⟩, 0, []⟩
      = Except.error (Abort.fatal s') ∧
      s'.copies = [] ++ [("/defs/schema.csv",
        "/rt/import" ++ "/" ++ ("paramdef/" ++ "mymission"))] ∧
      s'.waitCount = 0 + 1 :=
  c2_schema_failure_fatal (fun _ => false) _ [] "/defs/schema.csv" "mymission"
    rfl rfl rfl rfl

theorem run_import_after_def (oracle : Nat → Bool) (s s2 : RunState)
    (cat : List (String × TypeInfo))
    (hcat : s.imp.ares_data_types = some cat)
    (hdeff : s.imp.def_file.isSome = true)
    (hid : import_definitions oracle s = Except.ok s2) :
    run_import oracle s =
      (match s2.imp.data_dir with
       | some _ =>
         match do_import_from_dir oracle s2 with
         | Except.error (e, se) => Except.error (Abort.exn e se)
         | Except.ok s3 => Except.ok s3
       | none =>
         match do_import_single_file oracle s2 with
         | Except.error (e, se) => Except.error (Abort.exn e se)
         | Except.ok s3 => Except.ok s3) := by
  obtain ⟨df, hdf⟩ := Option.isSome_iff_exists.mp hdeff
  simp only [run_import, compile_patterns, hcat, hdf, hid]

/-- C3: when the definition-file import succeeds with original override
subdirectory `d`, the definition file itself was copied into the
`"paramdef/" + d` destination, and every data file copied afterwards in the
run goes to the `"parameter/" + d` destination (the override is rewritten
once, before the per-file phase). -/
theorem c3_two_phase_redirect (oracle : Nat → Bool) (s : RunState)
    (cat : List (String × TypeInfo)) (f d : String)
    (hcat : s.imp.ares_data_types = some cat)
    (hdef : s.imp.def_file = some f)
    (hover : s.imp.import_dir = some d)
    (hwait : oracle s.waitCount = true)
    (hcopies : s.copies = []) :
    ∃ s', run_import oracle s = Except.ok s' ∧
      s'.copies.head? = some (f, s.imp.ares_import ++ "/" ++ ("paramdef/" ++ d)) ∧
      ∀ c ∈ s'.copies.tail,
        c.2 = s.imp.ares_import ++ "/" ++ ("parameter/" ++ d) := by
  have hid := import_definitions_eq oracle s f d hdef hover
  rw [hwait] at hid
  simp only [eq_self_iff_true, if_true] at hid
  have hrun := run_import_after_def oracle s
    { s with
      copies := s.copies ++ [(f, s.imp.ares_import ++ "/" ++ ("paramdef/" ++ d))],
      waitCount := s.waitCount + 1,
      imp := { s.imp with import_dir := some ("parameter/" ++ d) } }
    cat hcat (by rw [hdef]; rfl) hid
  rw [show ({ s with
      copies := s.copies ++ [(f, s.imp.ares_import ++ "/" ++ ("paramdef/" ++ d))],
      waitCount := s.waitCount + 1,
      imp := { s.imp with import_dir := some ("parameter/" ++ d) } }
        : RunState).imp.data_dir = s.imp.data_dir from rfl] at hrun
  cases hdd : s.imp.data_dir with
  | some dd =>
    rw [hdd] at hrun
    have hdo : do_import_from_dir oracle
        { s with
          copies := s.copies
            ++ [(f, s.imp.ares_import ++ "/" ++ ("paramdef/" ++ d))],
          waitCount := s.waitCount + 1,
          imp := { s.imp with import_dir := some ("parameter/" ++ d) } }
      = importLoop oracle
        { s with
          copies := s.copies
            ++ [(f, s.imp.ares_import ++ "/" ++ ("paramdef/" ++ d))],
          waitCount := s.waitCount + 1,
          imp := { s.imp with
                   import_dir := some ("parameter/" ++ d),
                   num_of_files := s.imp.input_files.length } }
        s.imp.input_files := rfl
    obtain ⟨s', hloop, hcop, _hov, _hai⟩ :=
      importLoop_override oracle ("parameter/" ++ d) s.imp.input_files
        { s with
          copies := s.copies
            ++ [(f, s.imp.ares_import ++ "/" ++ ("paramdef/" ++ d))],
          waitCount := s.waitCount + 1,
          imp := { s.imp with
                   import_dir := some ("parameter/" ++ d),
                   num_of_files := s.imp.input_files.length } }
        rfl
    rw [hdo, hloop] at hrun
    refine ⟨s', by rw [hrun], ?_, ?_⟩
    · rw [hcop, hcopies]
      simp
    · intro c hc
      rw [hcop, hcopies] at hc
      simp only [List.nil_append, List.cons_append, List.tail_cons,
        List.nil_append] at hc
      obtain ⟨fn, _, rfl⟩ := List.mem_map.mp hc
      rfl
  | none =>
    rw [hdd] at hrun
    have hstep := importFileStep_of_detect_some oracle
      { s with
        copies := s.copies
          ++ [(f, s.imp.ares_import ++ "/" ++ ("paramdef/" ++ d))],
        waitCount := s.waitCount + 1,
        imp := { s.imp with import_dir := some ("parameter/" ++ d) } }
      (s.imp.input_file.getD "") "<assumed from specified folder>"
      ("parameter/" ++ d) (detectType_override _ _ _ rfl)
    have hsingle : do_import_single_file oracle
        { s with
          copies := s.copies
            ++ [(f, s.imp.ares_import ++ "/" ++ ("paramdef/" ++ d))],
          waitCount := s.waitCount + 1,
          imp := { s.imp with import_dir := some ("parameter/" ++ d) } }
      = importFileStep oracle
        { s with
          copies := s.copies
            ++ [(f, s.imp.ares_import ++ "/" ++ ("paramdef/" ++ d))],
          waitCount := s.waitCount + 1,
          imp := { s.imp with import_dir := some ("parameter/" ++ d) } }
        (s.imp.input_file.getD "") := rfl
    rw [hsingle, hstep] at hrun
    refine ⟨_, by rw [hrun], ?_, ?_⟩
    · rw [(update_stats_fields _ _).1, hcopies]
      simp
    · intro c hc
      rw [(update_stats_fields _ _).1, hcopies] at hc
      simp only [List.nil_append, List.cons_append, List.tail_cons,
        List.nil_append, List.mem_singleton] at hc
      rw [hc]

theorem c3_witness :
    ∃ s', run_import (fun _ => true)
        ⟨⟨some "/data", none, some "/defs/schema.csv", none, some "m",
          "/rt/import", some [], ["/data/x.dat", "/data/y.dat"], 1, 0, 0⟩, 0, []⟩
      = Except.ok s' ∧
      s'.copies.head? = some ("/defs/schema.csv",
        "/rt/import" ++ "/" ++ ("paramdef/" ++ "m")) ∧
      ∀ c ∈ s'.copies.tail,
        c.2 = "/rt/import" ++ "/" ++ ("parameter/" ++ "m") :=
  c3_two_phase_redirect (fun _ => true) _ [] "/defs/schema.csv" "m"
    rfl rfl rfl rfl rfl

theorem importFileStep_stats_some (oracle : Nat → Bool) (s : RunState)
    (f t dir : String)
    (h : detectType s.imp f = Except.ok (some (t, dir))) :
    ∃ s', importFileStep oracle s f = Except.ok s' ∧
      s'.imp.data_type = s.imp.data_type ∧
      s'.imp.ares_data_types = s.imp.ares_data_types ∧
      s'.imp.import_dir = s.imp.import_dir ∧
      s'.imp.num_of_files = s.imp.num_of_files ∧
      s'.waitCount = s.waitCount + 1 ∧
      s'.imp.num_of_imported_files = s.imp.num_of_imported_files
        + (if oracle s.waitCount then 1 else 0) ∧
      s'.imp.num_of_failed_files = s.imp.num_of_failed_files
        + (if oracle s.waitCount then 0 else 1) := by
  refine ⟨_, importFileStep_of_detect_some oracle s f t dir h,
    ?_, ?_, ?_, ?_, ?_, ?_, ?_⟩
  · rw [(update_stats_fields _ _).2.2.2.2.1]
  · rw [(update_stats_fields _ _).2.2.2.2.2.1]
  · rw [(update_stats_fields _ _).2.2.1]
  · rw [(update_stats_fields _ _).2.2.2.2.2.2.1]
  · rw [(update_stats_fields _ _).2.1]
  · rw [(update_stats_fields _ _).2.2.2.2.2.2.2.1]
  · rw [(update_stats_fields _ _).2.2.2.2.2.2.2.2]

theorem importFileStep_stats_none (oracle : Nat → Bool) (s : RunState)
    (f : String) (h : detectType s.imp f = Except.ok none) :
    ∃ s', importFileStep oracle s f = Except.ok s' ∧
      s'.imp.data_type = s.imp.data_type ∧
      s'.imp.ares_data_types = s.imp.ares_data_types ∧
      s'.imp.import_dir = s.imp.import_dir ∧
      s'.imp.num_of_files = s.imp.num_of_files ∧
      s'.waitCount = s.waitCount ∧
      s'.imp.num_of_imported_files = s.imp.num_of_imported_files ∧
      s'.imp.num_of_failed_files = s.imp.num_of_failed_files + 1 := by
  exact ⟨_, importFileStep_of_detect_none oracle s f h,
    rfl, rfl, rfl, rfl, rfl, rfl, rfl⟩

theorem importFileStep_ok (oracle : Nat → Bool) (s : RunState) (f : String)
    (cat : List (String × TypeInfo))
    (htype : s.imp.data_type = none)
    (hcat : s.imp.ares_data_types = some cat) :
    ∃ s', importFileStep oracle s f = Except.ok s' ∧
      s'.imp.data_type = s.imp.data_type ∧
      s'.imp.ares_data_types = s.imp.ares_data_types := by
  cases hover : s.imp.import_dir with
  | some D =>
    obtain ⟨s', h1, h2, h3, _⟩ := importFileStep_stats_some oracle s f
      "<assumed from specified folder>" D (detectType_override s.imp f D hover)
    exact ⟨s', h1, h2, h3⟩
  | none =>
    have hdetect := detectType_scan s.imp f cat hover htype hcat
    cases hm : firstMatch cat (pyBasename f) with
    | none =>
      rw [hm] at hdetect
      obtain ⟨s', h1, h2, h3, _⟩ := importFileStep_stats_none oracle s f hdetect
      exact ⟨s', h1, h2, h3⟩
    | some td =>
      rw [hm] at hdetect
      obtain ⟨s', h1, h2, h3, _⟩ :=
        importFileStep_stats_some oracle s f td.1 td.2 hdetect
      exact ⟨s', h1, h2, h3⟩

theorem importLoop_no_error (oracle : Nat → Bool) :
    ∀ (fs : List String) (s : RunState) (cat : List (String × TypeInfo)),
      s.imp.data_type = none → s.imp.ares_data_types = some cat →
      ∃ s', importLoop oracle s fs = Except.ok s' := by
  intro fs
  induction fs with
  | nil => intro s cat _ _; exact ⟨s, rfl⟩
  | cons f fs' ih =>
    intro s cat htype hcat
    obtain ⟨s1, hstep, hdt, hct⟩ := importFileStep_ok oracle s f cat htype hcat
    obtain ⟨s', hloop⟩ := ih s1 cat (by rw [hdt]; exact htype)
      (by rw [hct]; exact hcat)
    refine ⟨s', ?_⟩
    rw [importLoop, hstep]
    exact hloop

/-- C4: in a batch of 5 enumerated files where file 3 matches no rule (no
forced type, no override) and file 4's monitored result is Failed while the
other three waits succeed, the directory loop processes all five files and
the run completes normally with 3 imported, 2 failed, 5 total; and in
general the loop never aborts on an unclassified or failed file (second
conjunct). -/
theorem c4_batch_resilience :
    (∀ (oracle : Nat → Bool) (s : RunState) (cat : List (String × TypeInfo))
      (dd f1 f2 f3 f4 f5 : String),
      s.imp.ares_data_types = some cat →
      s.imp.import_dir = none →
      s.imp.data_type = none →
      s.imp.def_file = none →
      s.imp.data_dir = some dd →
      s.imp.input_files = [f1, f2, f3, f4, f5] →
      firstMatch cat (pyBasename f1) ≠ none →
      firstMatch cat (pyBasename f2) ≠ none →
      firstMatch cat (pyBasename f3) = none →
      firstMatch cat (pyBasename f4) ≠ none →
      firstMatch cat (pyBasename f5) ≠ none →
      oracle s.waitCount = true →
      oracle (s.waitCount + 1) = true →
      oracle (s.waitCount + 2) = false →
      oracle (s.waitCount + 3) = true →
      s.imp.num_of_imported_files = 0 →
      s.imp.num_of_failed_files = 0 →
      ∃ s', run_import oracle s = Except.ok s' ∧
        s'.imp.num_of_imported_files = 3 ∧
        s'.imp.num_of_failed_files = 2 ∧
        s'.imp.num_of_files = 5) ∧
    (∀ (oracle : Nat → Bool) (fs : List String) (s : RunState)
      (cat : List (String × TypeInfo)),
      s.imp.data_type = none → s.imp.ares_data_types = some cat →
      ∃ s', importLoop oracle s fs = Except.ok s') := by
  constructor
  · intro oracle s cat dd f1 f2 f3 f4 f5 hcat hover htype hdef hdd hfiles
      hm1 hm2 hm3 hm4 hm5 ho0 ho1 ho2 ho3 hi0 hf0
    cases hm1x : firstMatch cat (pyBasename f1) with
    | none => exact absurd hm1x hm1
    | some td1 =>
    cases hm2x : firstMatch cat (pyBasename f2) with
    | none => exact absurd hm2x hm2
    | some td2 =>
    cases hm4x : firstMatch cat (pyBasename f4) with
    | none => exact absurd hm4x hm4
    | some td4 =>
    cases hm5x : firstMatch cat (pyBasename f5) with
    | none => exact absurd hm5x hm5
    | some td5 =>
    set S0 : RunState :=
      { s with imp := { s.imp with
          num_of_files := s.imp.input_files.length } } with hS0
    have hover0 : S0.imp.import_dir = none := by rw [hS0]; exact hover
    have htype0 : S0.imp.data_type = none := by rw [hS0]; exact htype
    have hcat0 : S0.imp.ares_data_types = some cat := by rw [hS0]; exact hcat
    have det1 : detectType S0.imp f1 = Except.ok (some (td1.1, td1.2)) := by
      have h := detectType_scan S0.imp f1 cat hover0 htype0 hcat0
      rw [hm1x] at h
      exact h
    obtain ⟨s1, e1, dt1, ct1, ov1, nf1, w1, i1, fl1⟩ :=
      importFileStep_stats_some oracle S0 f1 td1.1 td1.2 det1
    have hover1 : s1.imp.import_dir = none := by rw [ov1]; exact hover0
    have htype1 : s1.imp.data_type = none := by rw [dt1]; exact htype0
    have hcat1 : s1.imp.ares_data_types = some cat := by rw [ct1]; exact hcat0
    have det2 : detectType s1.imp f2 = Except.ok (some (td2.1, td2.2)) := by
      have h := detectType_scan s1.imp f2 cat hover1 htype1 hcat1
      rw [hm2x] at h
      exact h
    obtain ⟨s2, e2, dt2, ct2, ov2, nf2, w2, i2, fl2⟩ :=
      importFileStep_stats_some oracle s1 f2 td2.1 td2.2 det2
    have hover2 : s2.imp.import_dir = none := by rw [ov2]; exact hover1
    have htype2 : s2.imp.data_type = none := by rw [dt2]; exact htype1
    have hcat2 : s2.imp.ares_data_types = some cat := by rw [ct2]; exact hcat1
    have det3 : detectType s2.imp f3 = Except.ok none := by
      have h := detectType_scan s2.imp f3 cat hover2 htype2 hcat2
      rw [hm3] at h
      exact h
    obtain ⟨s3, e3, dt3, ct3, ov3, nf3, w3, i3, fl3⟩ :=
      importFileStep_stats_none oracle s2 f3 det3
    have hover3 : s3.imp.import_dir = none := by rw [ov3]; exact hover2
    have htype3 : s3.imp.data_type = none := by rw [dt3]; exact htype2
    have hcat3 : s3.imp.ares_data_types = some cat := by rw [ct3]; exact hcat2
    have det4 : detectType s3.imp f4 = Except.ok (some (td4.1, td4.2)) := by
      have h := detectType_scan s3.imp f4 cat hover3 htype3 hcat3
      rw [hm4x] at h
      exact h
    obtain ⟨s4, e4, dt4, ct4, ov4, nf4, w4, i4, fl4⟩ :=
      importFileStep_stats_some oracle s3 f4 td4.1 td4.2 det4
    have hover4 : s4.imp.import_dir = none := by rw [ov4]; exact hover3
    have htype4 : s4.imp.data_type = none := by rw [dt4]; exact htype3
    have hcat4 : s4.imp.ares_data_types = some cat := by rw [ct4]; exact hcat3
    have det5 : detectType s4.imp f5 = Except.ok (some (td5.1, td5.2)) := by
      have h := detectType_scan s4.imp f5 cat hover4 htype4 hcat4
      rw [hm5x] at h
      exact h
    obtain ⟨s5, e5, dt5, ct5, ov5, nf5, w5, i5, fl5⟩ :=
      importFileStep_stats_some oracle s4 f5 td5.1 td5.2 det5
    -- wait counters
    have hw0 : S0.waitCount = s.waitCount := by rw [hS0]
    have hw1 : s1.waitCount = s.waitCount + 1 := by rw [w1, hw0]
    have hw2 : s2.waitCount = s.waitCount + 2 := by omega
    have hw3 : s3.waitCount = s.waitCount + 2 := by omega
    have hw4 : s4.waitCount = s.waitCount + 3 := by omega
    -- oracle values at each wait
    have b0 : oracle S0.waitCount = true := by rw [hw0]; exact ho0
    have b1 : oracle s1.waitCount = true := by rw [hw1]; exact ho1
    have b3 : oracle s3.waitCount = false := by rw [hw3]; exact ho2
    have b4 : oracle s4.waitCount = true := by rw [hw4]; exact ho3
    rw [b0] at i1 fl1
    rw [b1] at i2 fl2
    rw [b3] at i4 fl4
    rw [b4] at i5 fl5
    simp only [eq_self_iff_true, if_true, Bool.false_eq_true,
      if_false] at i1 fl1 i2 fl2 i4 fl4 i5 fl5
    have hS0i : S0.imp.num_of_imported_files = 0 := by rw [hS0]; exact hi0
    have hS0f : S0.imp.num_of_failed_files = 0 := by rw [hS0]; exact hf0
    have hS0n : S0.imp.num_of_files = 5 := by rw [hS0]; simp [hfiles]
    -- assemble the loop
    have eloop : importLoop oracle S0 [f1, f2, f3, f4, f5] = Except.ok s5 := by
      rw [importLoop, e1]
      show importLoop oracle s1 [f2, f3, f4, f5] = Except.ok s5
      rw [importLoop, e2]
      show importLoop oracle s2 [f3, f4, f5] = Except.ok s5
      rw [importLoop, e3]
      show importLoop oracle s3 [f4, f5] = Except.ok s5
      rw [importLoop, e4]
      show importLoop oracle s4 [f5] = Except.ok s5
      rw [importLoop, e5]
      rfl
    have e0' : do_import_from_dir oracle s
        = importLoop oracle S0 [f1, f2, f3, f4, f5] := by
      rw [hS0, ← hfiles]
      rfl
    have e0 : run_import oracle s = Except.ok s5 := by
      simp only [run_import, compile_patterns, hcat, hdef, hdd, e0', eloop]
    refine ⟨s5, e0, ?_, ?_, ?_⟩
    · omega
    · omega
    · rw [nf5, nf4, nf3, nf2, nf1]
      exact hS0n
  · intro oracle fs s cat htype hcat
    exact importLoop_no_error oracle fs s cat htype hcat

def c4oracle : Nat → Bool := fun n => !(n == 2)

def c4cat : List (String × TypeInfo) :=
  [("TYP", ⟨fun b => !(b == "f3.dat"), "tdir"⟩)]

def c4state : RunState :=
  ⟨⟨some "/in", none, none, none, none, "/rt/import", some c4cat,
    ["/in/f1.dat", "/in/f2.dat", "/in/f3.dat", "/in/f4.dat", "/in/f5.dat"],
    1, 0, 0⟩, 0, []⟩

theorem c4_witness :
    ∃ s', run_import c4oracle c4state = Except.ok s' ∧
      s'.imp.num_of_imported_files = 3 ∧
      s'.imp.num_of_failed_files = 2 ∧
      s'.imp.num_of_files = 5 :=
  c4_batch_resilience.1 c4oracle c4state c4cat "/in"
    "/in/f1.dat" "/in/f2.dat" "/in/f3.dat" "/in/f4.dat" "/in/f5.dat"
    rfl rfl rfl rfl rfl rfl
    (by decide) (by decide) (by decide) (by decide) (by decide)
    (by decide) (by decide) (by decide) (by decide) rfl rfl

theorem firstMatch_first (base : String) :
    ∀ (pre : List (String × TypeInfo)) (n1 : String) (i1 : TypeInfo)
      (rest : List (String × TypeInfo)),
      (∀ r ∈ pre, r.2.re base = false) → i1.re base = true →
      firstMatch (pre ++ (n1, i1) :: rest) base = some (n1, i1.dir) := by
  intro pre
  induction pre with
  | nil =>
    intro n1 i1 rest _ h1
    simp [firstMatch, h1]
  | cons x pre' ih =>
    intro n1 i1 rest hpre h1
    obtain ⟨xn, xi⟩ := x
    have hx : xi.re base = false := hpre (xn, xi) (by simp)
    simp only [List.cons_append, firstMatch, hx, Bool.false_eq_true, if_false]
    exact ih n1 i1 rest (fun r hr => hpre r (by simp [hr])) h1

/-- C5: with no forced type and no override directory, classification
iterates the catalog in order and the first matching rule wins: when `R1`
appears before `R2`, both match the file's base name, and nothing ordered
before `R1` matches, detection returns `R1`'s type name and destination
subdirectory. -/
theorem c5_first_match_priority (imp : Importer) (fname : String)
    (pre mid post : List (String × TypeInfo)) (n1 n2 : String)
    (i1 i2 : TypeInfo)
    (hcat : imp.ares_data_types
      = some (pre ++ (n1, i1) :: (mid ++ (n2, i2) :: post)))
    (hover : imp.import_dir = none) (htype : imp.data_type = none)
    (hpre : ∀ r ∈ pre, r.2.re (pyBasename fname) = false)
    (h1 : i1.re (pyBasename fname) = true)
    (_h2 : i2.re (pyBasename fname) = true) :
    detectType imp fname = Except.ok (some (n1, i1.dir)) := by
  rw [detectType_scan imp fname _ hover htype hcat,
    firstMatch_first (pyBasename fname) pre n1 i1 (mid ++ (n2, i2) :: post)
      hpre h1]

def c5imp : Importer :=
  ⟨some "/d", none, none, none, none, "/rt/import",
   some [("P", ⟨fun _ => false, "pd"⟩),
         ("R1", ⟨fun b => b == "x.dat", "r1d"⟩),
         ("R2", ⟨fun _ => true, "r2d"⟩)],
   ["/d/x.dat"], 1, 0, 0⟩

theorem c5_witness :
    detectType c5imp "/d/x.dat" = Except.ok (some ("R1", "r1d")) :=
  c5_first_match_priority c5imp "/d/x.dat"
    [("P", ⟨fun _ => false, "pd"⟩)] [] [] "R1" "R2"
    ⟨fun b => b == "x.dat", "r1d"⟩ ⟨fun _ => true, "r2d"⟩
    rfl rfl rfl (by decide) (by decide) (by decide)

/-- C6: a file whose base name matches no catalog rule (no forced type, no
override) triggers zero copy events and no wait; the failure counter is
incremented and the loop simply continues with the remaining files. -/
theorem c6_unclassified_no_copy (oracle : Nat → Bool) (s : RunState)
    (cat : List (String × TypeInfo)) (f : String) (fs : List String)
    (hcat : s.imp.ares_data_types = some cat)
    (hover : s.imp.import_dir = none) (htype : s.imp.data_type = none)
    (hmatch : firstMatch cat (pyBasename f) = none) :
    ∃ s', importFileStep oracle s f = Except.ok s' ∧
      s'.copies = s.copies ∧
      s'.waitCount = s.waitCount ∧
      s'.imp.num_of_failed_files = s.imp.num_of_failed_files + 1 ∧
      s'.imp.num_of_imported_files = s.imp.num_of_imported_files ∧
      importLoop oracle s (f :: fs) = importLoop oracle s' fs := by
  have hdet : detectType s.imp f = Except.ok none := by
    have h := detectType_scan s.imp f cat hover htype hcat
    rw [hmatch] at h
    exact h
  have hstep := importFileStep_of_detect_none oracle s f hdet
  refine ⟨_, hstep, rfl, rfl, rfl, rfl, ?_⟩
  rw [importLoop, hstep]

def c6state : RunState :=
  ⟨⟨some "/in", none, none, none, none, "/rt/import",
    some [("T", ⟨fun b => b == "good.dat", "td"⟩)],
    ["/in/bad.dat", "/in/good.dat"], 1, 0, 0⟩, 0, []⟩

theorem c6_witness :
    ∃ s', importFileStep (fun _ => true) c6state "/in/bad.dat"
        = Except.ok s' ∧
      s'.copies = c6state.copies ∧
      s'.waitCount = c6state.waitCount ∧
      s'.imp.num_of_failed_files = c6state.imp.num_of_failed_files + 1 ∧
      s'.imp.num_of_imported_files = c6state.imp.num_of_imported_files ∧
      importLoop (fun _ => true) c6state ["/in/bad.dat", "/in/good.dat"]
        = importLoop (fun _ => true) s' ["/in/good.dat"] :=
  c6_unclassified_no_copy (fun _ => true) c6state
    [("T", ⟨fun b => b == "good.dat", "td"⟩)] "/in/bad.dat" ["/in/good.dat"]
    rfl rfl rfl (by decide)

/-- C7 (code bug): when a forced data type is supplied (and no override
directory), `__init__` never loads the type catalog (the configuration is
read only when both `data_type` and `import_dir` are falsy), yet
`run_import` unconditionally calls `compile_patterns`, which touches the
never-assigned `ares_data_types` attribute.  A forced-type run therefore
raises `AttributeError` before any lookup or copy, instead of resolving the
destination by direct catalog lookup as the claim states. -/
theorem c7_forced_type_attribute_error (oracle : Nat → Bool) (fs : FileSys)
    (runtimeDefault : String) (catalog : List (String × TypeInfo))
    (t dd : String) (input_file def_file : Option String)
    (hrt : fs.isDir runtimeDefault = true)
    (hdd : fs.isDir dd = true)
    (hglob : 1 ≤ (fs.globDat dd).length) :
    ∃ imp, importerInit fs runtimeDefault catalog (some dd) input_file
        def_file none none (some t) = InitResult.ok imp ∧
      imp.ares_data_types = none ∧
      imp.data_type = some t ∧
      run_import oracle ⟨imp, 0, []⟩
        = Except.error (Abort.exn PyErr.attributeError ⟨imp, 0, []⟩) := by
  refine ⟨⟨some dd, input_file, def_file, some t, none,
      runtimeDefault ++ "/import", none, fs.globDat dd, 1, 0, 0⟩,
    ?_, rfl, rfl, rfl⟩
  simp only [importerInit, Option.getD_none, Option.getD_some,
    Option.isNone_some, Bool.false_and, if_false, pyIsDirOpt, hrt, hdd,
    Bool.not_true, Bool.false_eq_true]
  rw [if_neg (by omega)]

def fsTrue : FileSys := ⟨fun _ => true, fun _ => ["/in/a.dat"]⟩

theorem c7_witness :
    ∃ imp, importerInit fsTrue "/rt" [] (some "/in") none none none none
        (some "HK_TM") = InitResult.ok imp ∧
      imp.ares_data_types = none ∧
      imp.data_type = some "HK_TM" ∧
      run_import (fun _ => true) ⟨imp, 0, []⟩
        = Except.error (Abort.exn PyErr.attributeError ⟨imp, 0, []⟩) :=
  c7_forced_type_attribute_error (fun _ => true) fsTrue "/rt" [] "HK_TM"
    "/in" none none rfl rfl (by decide)

/-- C8 (code bug): with a single explicit input file and no data directory,
`__init__` does not succeed: it unconditionally evaluates
`os.path.isdir(self.data_dir)` with `data_dir = None`, which raises
`TypeError`, so the single-file dispatch in `run_import` is unreachable
(the claim — and the spec — expect initialization to succeed and the run to
use the single-file path). -/
theorem c8_single_file_init_type_error (fs : FileSys)
    (runtimeDefault : String) (catalog : List (String × TypeInfo))
    (f : String) (def_file ares_runtime import_dir data_type : Option String)
    (hrt : fs.isDir (ares_runtime.getD runtimeDefault) = true) :
    importerInit fs runtimeDefault catalog none (some f) def_file
      ares_runtime import_dir data_type = InitResult.exn PyErr.typeError := by
  simp only [importerInit, pyIsDirOpt, hrt, Bool.not_true,
    Bool.false_eq_true, if_false]

theorem c8_witness :
    importerInit fsTrue "/rt" [] none (some "/data/sample.dat") none none
      none none = InitResult.exn PyErr.typeError :=
  c8_single_file_init_type_error fsTrue "/rt" [] "/data/sample.dat"
    none none none none rfl
